import Mathlib

/-!
Verification of the GitCLI interactive git wrapper.

The repository is Python glue code around the external `git` binary: every
handler is a straight-line interactive script combining prompts (`input()`),
subprocess calls (`run_command` / `subprocess.run`) and branching on captured
text.  We shallowly embed each handler as a pure Lean function:

* Python strings are modelled as `PyStr := List Char` together with
  executable counterparts of the string methods the source uses
  (`strip`, `lower`, `replace`, `split`, `startswith`, `in`, `int`, ...).
* The results of the read-only git query commands a handler issues are
  collected in a `GitWorld` record: each field holds the `run_command`
  result for one query command (`some out` = the command succeeded and
  printed `out` after `.strip()`, `none` = non-zero exit, in which case
  `run_command` returns Python `None`).
* The stream of interactive answers is a `List PyStr`; `input()` on an
  exhausted stream is Python's `EOFError`, so handlers live in
  `Except PyStr`.
* A handler returns the list of state-mutating shell commands it handed to
  `run_command` / `subprocess.run`, in order — its observable effect.
Definitions are translated from the source files under `src/gitcli/`
(the final, packaged iteration of the program, which `cli.py` dispatches
to); the module of origin is noted on each namespace.
-/

set_option maxRecDepth 10000

/-- Python strings, modelled as their character lists (`String` itself does
not reduce in the kernel). -/
abbrev PyStr := List Char

/-- Coercion from a Lean string literal to the model. -/
def strOf (s : String) : PyStr := s.data

/-- Python `str.lower()`. -/
def pyLower (s : PyStr) : PyStr := s.map Char.toLower

/-- Python `str.strip()` with no argument: drop leading and trailing
whitespace. -/
def pyStrip (s : PyStr) : PyStr :=
  ((s.dropWhile Char.isWhitespace).reverse.dropWhile Char.isWhitespace).reverse

/-- Python `str.replace(old, new)` for single-character `old` and `new`
(the only form the source uses, e.g. `.replace(" ", "-")`). -/
def pyReplaceChar (s : PyStr) (old new : Char) : PyStr :=
  s.map (fun c => if c = old then new else c)

/-- Python `str.split(sep)` for a single-character separator (the source
only splits on `'\n'` and `'/'`).  `"".split(sep) = [""]`. -/
def pySplitOnChar (s : PyStr) (sep : Char) : List PyStr :=
  s.foldr (fun c acc =>
    match acc with
    | [] => if c = sep then [[], []] else [[c]]
    | a :: rest => if c = sep then [] :: a :: rest else (c :: a) :: rest) [[]]

/-- Python `str.startswith(pat)`. -/
def pyStartsWith (s pat : PyStr) : Bool := pat.isPrefixOf s

/-- Python `str.endswith(pat)`. -/
def pyEndsWith (s pat : PyStr) : Bool := pat.isSuffixOf s

/-- Python `pat in s` substring test. -/
def pyContains (s pat : PyStr) : Bool :=
  pat.isPrefixOf s || (match s with | [] => false | _ :: cs => pyContains cs pat)

/-- Decimal rendering of a natural number, as used by Python f-strings such
as `f"Update {file_count} files"`. -/
def natStr (n : Nat) : PyStr := Nat.toDigits 10 n

/-- Python `int(s)`: an optional sign followed by at least one digit
(after stripping whitespace); anything else raises `ValueError`, modelled
as `none`. -/
def pyInt? (s : PyStr) : Option Int :=
  let t := pyStrip s
  match t with
  | '-' :: ds =>
    if ds ≠ [] ∧ ds.all Char.isDigit then
      some (-(Int.ofNat (ds.foldl (fun a c => a * 10 + (c.toNat - 48)) 0)))
    else none
  | ds =>
    if ds ≠ [] ∧ ds.all Char.isDigit then
      some (Int.ofNat (ds.foldl (fun a c => a * 10 + (c.toNat - 48)) 0))
    else none

/-- Python truthiness of a `run_command` result (`None` and `""` are
falsy). -/
def pyFalsy (o : Option PyStr) : Bool :=
  match o with
  | none => true
  | some s => s.isEmpty

/-- Python `os.path.basename`: the part after the last `/`. -/
def osBasename (f : PyStr) : PyStr := (pySplitOnChar f '/').getLastD f

/-- Python `input()` on a stream of prepared answers; an exhausted stream
raises `EOFError`. -/
def popInput : List PyStr → Except PyStr (PyStr × List PyStr)
  | [] => .error (strOf "EOFError")
  | x :: xs => .ok (x, xs)

/-- Results of the read-only git query commands issued through
`run_command`.  Field `= some out` means the command exited 0 and printed
`out` (already `.strip()`-ed by `run_command`); `none` means non-zero exit
(`run_command` returns Python `None`). -/
structure GitWorld where
  /-- `git rev-parse --abbrev-ref HEAD` -/
  revParseAbbrevRef : Option PyStr := none
  /-- `git diff --cached --name-only` -/
  diffCachedNameOnly : Option PyStr := none
  /-- `git diff --name-only` -/
  diffNameOnly : Option PyStr := none
  /-- `git remote` -/
  remoteOut : Option PyStr := none
  /-- `git log -5 --pretty=format:%s` -/
  log5Subjects : Option PyStr := none
  /-- `git log -1 --oneline` -/
  log1Oneline : Option PyStr := none
  /-- `git branch -r --contains HEAD` -/
  branchRContainsHead : Option PyStr := none
  /-- `git rev-list --count @\x7bu\x7d..HEAD` -/
  revListAhead : Option PyStr := none
  /-- `git rev-list --count HEAD..@\x7bu\x7d` -/
  revListBehind : Option PyStr := none
  /-- `git stash list` -/
  stashListOut : Option PyStr := none
  /-- `git diff --name-only --diff-filter=U` -/
  diffFilterU : Option PyStr := none
  /-- `os.path.exists(".git/MERGE_HEAD")` -/
  mergeHeadExists : Bool := false
deriving Repr

namespace Helpers
/-! Translated from `src/gitcli/helpers.py`. -/

/-- `get_current_branch`: `git rev-parse --abbrev-ref HEAD`, falling back to
`"main"` when the result is falsy (command failed, e.g. no commits yet, or
empty output). -/
def get_current_branch (w : GitWorld) : PyStr :=
  match w.revParseAbbrevRef with
  | none => strOf "main"
  | some b => if b.isEmpty then strOf "main" else b

/-- `has_staged_changes`: `bool(status.strip())` for
`status = run_command("git diff --cached --name-only")`.  When the command
fails `status` is `None` and `.strip()` raises `AttributeError`. -/
def has_staged_changes (w : GitWorld) : Except PyStr Bool :=
  match w.diffCachedNameOnly with
  | none => .error (strOf "AttributeError")
  | some s => .ok (!(pyStrip s).isEmpty)

/-- `has_unstaged_changes`: same shape over `git diff --name-only`. -/
def has_unstaged_changes (w : GitWorld) : Except PyStr Bool :=
  match w.diffNameOnly with
  | none => .error (strOf "AttributeError")
  | some s => .ok (!(pyStrip s).isEmpty)

/-- `has_any_changes`: `has_staged_changes() or has_unstaged_changes()`
with Python's short-circuit evaluation. -/
def has_any_changes (w : GitWorld) : Except PyStr Bool := do
  let s ← has_staged_changes w
  if s then pure true else has_unstaged_changes w

/-- `has_remote`: `bool(run_command("git remote"))` — no `.strip()` call,
so a failed command (`None`) is simply falsy and nothing raises. -/
def has_remote (w : GitWorld) : Bool := !pyFalsy w.remoteOut

/-- The nested `validation_rules` record of the configuration. -/
structure ValidationRules where
  check_debug : Bool
  check_secrets : Bool
  check_conflicts : Bool
  check_large_files : Bool
  max_file_size_mb : Nat
deriving Repr, DecidableEq

/-- The flat GitCLI configuration record persisted in
`.gitcli-config.json`. -/
structure Config where
  auto_push : Bool
  auto_stage : Bool
  commit_message_template : Option PyStr
  learn_from_history : Bool
  pre_save_validation : Bool
  auto_pull_before_push : Bool
  auto_fix_formatting : Bool
  confirm_force_push : Bool
  validation_rules : ValidationRules
deriving Repr, DecidableEq

/-- The hard-coded default configuration returned by `get_config` when the
file is absent or unreadable. -/
def defaultConfig : Config :=
  { auto_push := true
    auto_stage := true
    commit_message_template := none
    learn_from_history := true
    pre_save_validation := true
    auto_pull_before_push := true
    auto_fix_formatting := false
    confirm_force_push := true
    validation_rules :=
      { check_debug := true
        check_secrets := true
        check_conflicts := true
        check_large_files := true
        max_file_size_mb := 10 } }

/-- State of `.gitcli-config.json` on disk: `none` = the file does not
exist, `some none` = it exists but `open`/`json.load` raises (the bare
`except: pass` swallows the error), `some (some c)` = it parses to `c`. -/
abbrev ConfigFile := Option (Option Config)

/-- `get_config`: return the parsed file when it exists and parses, else
the hard-coded defaults.  The second component is the list of files the
call writes — always empty: `get_config` only ever reads.  The function is
total: every failure path is caught by the source's `except: pass`. -/
def get_config (st : ConfigFile) : Config × List PyStr :=
  match st with
  | some (some c) => (c, [])
  | some none => (defaultConfig, [])
  | none => (defaultConfig, [])

/-- `save_config`: open `.gitcli-config.json` for writing and dump the
record.  Returns the written file list. -/
def save_config (_c : Config) : List PyStr := [strOf ".gitcli-config.json"]

/-- The conventional-commit subject markers checked by
`get_commit_history_pattern`. -/
def conventionalTypes : List PyStr :=
  [strOf "feat:", strOf "fix:", strOf "docs:", strOf "style:",
   strOf "refactor:", strOf "test:", strOf "chore:"]

/-- Number of the given commit subjects that carry a conventional-commit
marker. -/
def conventionalCount (commits : List PyStr) : Nat :=
  (commits.filter (fun c => conventionalTypes.any (fun p => pyStartsWith c p))).length

/-- Number of the given commit subjects that start (case-insensitively)
with `wip`. -/
def wipCount (commits : List PyStr) : Nat :=
  (commits.filter (fun c => pyStartsWith (pyLower c) (strOf "wip"))).length

/-- `get_commit_history_pattern`: analyze the last five commit subjects
(`git log -5 --pretty=format:%s`).  Returns `"conventional"` when at least
3 carry a conventional-commit marker, else `"wip"` when at least 3 start
with `wip`, else `None`; also `None` when the log query is falsy or there
are fewer than 2 subjects. -/
def get_commit_history_pattern (hist : Option PyStr) : Option PyStr :=
  match hist with
  | none => none
  | some result =>
    if result.isEmpty then none
    else
      let commits := pySplitOnChar (pyStrip result) '\n'
      if commits.length < 2 then none
      else if 3 ≤ conventionalCount commits then some (strOf "conventional")
      else if 3 ≤ wipCount commits then some (strOf "wip")
      else none

/-- `generate_commit_message`: synthesize the smart default commit message
from the staged file list (`git diff --cached --name-only`, first
argument) and the commit-subject history (second argument). -/
def generate_commit_message (staged hist : Option PyStr) : PyStr :=
  match staged with
  | none => strOf "Update files"
  | some s =>
    if s.isEmpty then strOf "Update files"
    else
      let files := pySplitOnChar (pyStrip s) '\n'
      let file_count := files.length
      let file_names := (files.take 3).map osBasename
      let pattern := get_commit_history_pattern hist
      if pattern = some (strOf "conventional") then
        let pfx :=
          if files.any (fun f => pyContains (pyLower f) (strOf "test")) then strOf "test"
          else if files.any (fun f =>
            pyEndsWith f (strOf ".md") || pyContains (pyLower f) (strOf "readme")) then
            strOf "docs"
          else if file_count = 1 then strOf "feat"
          else strOf "chore"
        if file_count = 1 then
          pfx ++ strOf ": update " ++ file_names.headD []
        else
          pfx ++ strOf ": update " ++ natStr file_count ++ strOf " files"
      else if pattern = some (strOf "wip") then strOf "WIP"
      else
        if file_count = 1 then strOf "Update " ++ file_names.headD []
        else if file_count ≤ 3 then
          strOf "Update " ++ List.intercalate (strOf ", ") file_names
        else strOf "Update " ++ natStr file_count ++ strOf " files"

end Helpers

namespace SmartWorkflows
/-! Translated from `src/gitcli/smart_workflows.py`. -/

/-- The `if ahead and int(ahead) > 0` test of `smart_status` (and of the
`save`/`done`/`sync` workflows) applied to a `run_command` result of a
`git rev-list --count` query: a failed query (`None`, e.g. no upstream) or
empty output is falsy and counts as zero; otherwise the integer is parsed
(`int` raises `ValueError` on non-numeric text). -/
def countPositive (o : Option PyStr) : Except PyStr Bool :=
  match o with
  | none => .ok false
  | some s =>
    if s.isEmpty then .ok false
    else
      match pyInt? s with
      | some n => .ok (0 < n)
      | none => .error (strOf "ValueError")

end SmartWorkflows

namespace GitHooks
/-! Translated from `src/gitcli/git_hooks.py` (and `HOOKS_DIR` from
`src/gitcli/hook_templates.py`).  The filesystem is modelled as a map
from path to file content plus an executable flag per path; the persisted
`.gitcli-hooks.json` record is modelled as its `enabled_hooks` mapping
from hook type to installation record.  The hook script written by
`install_hook` (a static template body or the output of
`generate_hook_script`) is passed in as the `script` argument — its
content is irrelevant to the backup/restore mechanics. -/

/-- `HOOKS_DIR = ".git/hooks"`. -/
def HOOKS_DIR : PyStr := strOf ".git/hooks"

/-- The persisted per-hook installation record:
`{"template": template_key, "config": hook_config or {}}`. -/
structure HookRecord where
  template : PyStr
  config : Option PyStr
deriving Repr, DecidableEq

/-- Filesystem and persisted-record state as seen by the hook manager. -/
structure HookFS where
  hooksDirExists : Bool
  files : PyStr → Option PyStr
  executable : PyStr → Bool
  records : PyStr → Option HookRecord

/-- Writing a file (`open(path, "w")` + `write`). -/
def fsWrite (fs : HookFS) (p c : PyStr) : HookFS :=
  { fs with files := fun q => if q = p then some c else fs.files q }

/-- `os.remove`. -/
def fsRemove (fs : HookFS) (p : PyStr) : HookFS :=
  { fs with files := fun q => if q = p then none else fs.files q,
            executable := fun q => if q = p then false else fs.executable q }

/-- `os.rename src dst` (moves content and mode; overwrites `dst`). -/
def fsRename (fs : HookFS) (src dst : PyStr) : HookFS :=
  match fs.files src with
  | none => fs
  | some c =>
    { fs with
      files := fun q => if q = dst then some c else if q = src then none else fs.files q,
      executable := fun q =>
        if q = dst then fs.executable src else if q = src then false else fs.executable q }

/-- `make_executable` (`chmod` adding the execute bit). -/
def fsChmodExec (fs : HookFS) (p : PyStr) : HookFS :=
  { fs with executable := fun q => if q = p then true else fs.executable q }

/-- `os.path.join(HOOKS_DIR, hook_type)`. -/
def hookPath (hook_type : PyStr) : PyStr := HOOKS_DIR ++ strOf "/" ++ hook_type

/-- `install_hook` (`git_hooks.py`, lines 153-195): refuse without the
hooks directory; rename any existing hook file to `<hook>.backup`; write
the new script; mark it executable; persist the installation record under
the hook type. -/
def install_hook (fs : HookFS) (hook_type template_key script : PyStr)
    (hook_config : Option PyStr) : Bool × HookFS :=
  if !fs.hooksDirExists then (false, fs)
  else
    let hp := hookPath hook_type
    let fs1 := if (fs.files hp).isSome then fsRename fs hp (hp ++ strOf ".backup") else fs
    let fs2 := fsChmodExec (fsWrite fs1 hp script) hp
    let fs3 := { fs2 with records := fun t =>
      if t = hook_type then some ⟨template_key, hook_config⟩ else fs2.records t }
    (true, fs3)

/-- `uninstall_hook` (`git_hooks.py`, lines 198-223): refuse when the hook
file does not exist; restore `<hook>.backup` over the hook path when it
exists, else just delete the hook; drop the persisted record if any. -/
def uninstall_hook (fs : HookFS) (hook_type : PyStr) : Bool × HookFS :=
  let hp := hookPath hook_type
  if (fs.files hp).isNone then (false, fs)
  else
    let bp := hp ++ strOf ".backup"
    let fs1 :=
      if (fs.files bp).isSome then fsRename (fsRemove fs hp) bp hp
      else fsRemove fs hp
    let fs2 :=
      if (fs1.records hook_type).isSome then
        { fs1 with records := fun t => if t = hook_type then none else fs1.records t }
      else fs1
    (true, fs2)

end GitHooks

namespace GitConflicts
/-! Translated from `src/gitcli/git_conflicts.py`.  The loop of
`resolve_conflicts` mutates an in-memory copy of the conflicted-file list;
the embedding threads that list, the accumulated command trace and the
remaining input stream explicitly.  `ok cmd` tells whether the mutating
command `cmd` exits 0 (the `result is not None` tests of the source);
editor launches and file viewing are terminal-only and leave no trace. -/

/-- `has_conflicts`: `bool(result and result.strip())` over
`git diff --name-only --diff-filter=U`; a failed or empty query is simply
falsy. -/
def has_conflicts (w : GitWorld) : Bool :=
  match w.diffFilterU with
  | none => false
  | some s => !s.isEmpty && !(pyStrip s).isEmpty

/-- `get_conflicted_files`: the unmerged paths, one per line. -/
def get_conflicted_files (w : GitWorld) : List PyStr :=
  match w.diffFilterU with
  | none => []
  | some s => if !s.isEmpty then pySplitOnChar (pyStrip s) '\n' else []

/-- `complete_merge` (`git_conflicts.py`, lines 270-291): when
`.git/MERGE_HEAD` exists, prompt for a merge message and commit — with the
typed message, or with `--no-edit` (the merge message file) when the input
is empty; when it does not exist, print that the changes are staged and
run nothing.  Returns the commands run and the remaining inputs. -/
def complete_merge (mergeHead : Bool) (inputs : List PyStr) :
    Except PyStr (List PyStr × List PyStr) := do
  if mergeHead then do
    let (rawMessage, rest) ← popInput inputs
    let message := pyStrip rawMessage
    if !message.isEmpty then
      .ok ([strOf "git commit -m \"" ++ message ++ strOf "\""], rest)
    else .ok ([strOf "git commit --no-edit"], rest)
  else .ok ([], inputs)

/-- Menu file-number parsing: Python's `idx = int(file_num) - 1` guarded
by `0 <= idx < len(conflicted_files)`; a `ValueError` and an out-of-range
number both just continue the loop, so both are `none`. -/
def parseIndex (s : PyStr) (files : List PyStr) : Option PyStr :=
  match pyInt? s with
  | none => none
  | some i => if 1 ≤ i ∧ i ≤ files.length then files.get? (i - 1).toNat else none

/-- Outcome of a `resolve_conflicts` session: commands run, the in-memory
conflicted-file list at exit, and whether the automatic merge-completion
step (`complete_merge`) was reached. -/
structure ResolveOut where
  trace : List PyStr
  files : List PyStr
  completed : Bool
deriving Repr, DecidableEq

/-- The `while True` menu loop of `resolve_conflicts` (`git_conflicts.py`,
lines 105-268), one equation per consumed menu choice. -/
def resolveLoop (mh : Bool) (ok : PyStr → Bool) :
    List PyStr → List PyStr → List PyStr → Except PyStr ResolveOut
  | _files, _trace, [] => .error (strOf "EOFError")
  | files, trace, rawChoice :: rest =>
    let choice := pyStrip rawChoice
    if choice = strOf "1" then
      -- view conflict markers: consumes the file number, prints, loops
      match rest with
      | [] => .error (strOf "EOFError")
      | _rawFnum :: rest2 => resolveLoop mh ok files trace rest2
    else if choice = strOf "2" then
      -- open in editor, then optionally mark resolved
      match rest with
      | [] => .error (strOf "EOFError")
      | rawFnum :: rest2 =>
        match parseIndex (pyStrip rawFnum) files with
        | none => resolveLoop mh ok files trace rest2
        | some filepath =>
          match rest2 with
          | [] => .error (strOf "EOFError")
          | mark :: rest3 =>
            if pyLower mark = strOf "y" then
              let cmd := strOf "git add " ++ filepath
              if ok cmd then
                let files' := files.erase filepath
                if files'.isEmpty then do
                  let (cm, _) ← complete_merge mh rest3
                  .ok ⟨trace ++ [cmd] ++ cm, files', true⟩
                else resolveLoop mh ok files' (trace ++ [cmd]) rest3
              else resolveLoop mh ok files (trace ++ [cmd]) rest3
            else resolveLoop mh ok files trace rest3
    else if choice = strOf "3" then
      -- accept ours (current branch), single file or "all"
      match rest with
      | [] => .error (strOf "EOFError")
      | rawFnum :: rest2 =>
        let fnum := pyStrip rawFnum
        if pyLower fnum = strOf "all" then
          match rest2 with
          | [] => .error (strOf "EOFError")
          | confirm :: rest3 =>
            if pyLower confirm = strOf "y" then
              let cmd := strOf "git checkout --ours ."
              if ok cmd then do
                let (cm, _) ← complete_merge mh rest3
                .ok ⟨trace ++ [cmd, strOf "git add ."] ++ cm, files, true⟩
              else resolveLoop mh ok files (trace ++ [cmd]) rest3
            else resolveLoop mh ok files trace rest3
        else
          match parseIndex fnum files with
          | none => resolveLoop mh ok files trace rest2
          | some filepath =>
            match rest2 with
            | [] => .error (strOf "EOFError")
            | confirm :: rest3 =>
              if pyLower confirm = strOf "y" then
                let cmd := strOf "git checkout --ours " ++ filepath
                if ok cmd then
                  let files' := files.erase filepath
                  let trace' := trace ++ [cmd, strOf "git add " ++ filepath]
                  if files'.isEmpty then do
                    let (cm, _) ← complete_merge mh rest3
                    .ok ⟨trace' ++ cm, files', true⟩
                  else resolveLoop mh ok files' trace' rest3
                else resolveLoop mh ok files (trace ++ [cmd]) rest3
              else resolveLoop mh ok files trace rest3
    else if choice = strOf "4" then
      -- accept theirs (incoming branch), single file or "all"
      match rest with
      | [] => .error (strOf "EOFError")
      | rawFnum :: rest2 =>
        let fnum := pyStrip rawFnum
        if pyLower fnum = strOf "all" then
          match rest2 with
          | [] => .error (strOf "EOFError")
          | confirm :: rest3 =>
            if pyLower confirm = strOf "y" then
              let cmd := strOf "git checkout --theirs ."
              if ok cmd then do
                let (cm, _) ← complete_merge mh rest3
                .ok ⟨trace ++ [cmd, strOf "git add ."] ++ cm, files, true⟩
              else resolveLoop mh ok files (trace ++ [cmd]) rest3
            else resolveLoop mh ok files trace rest3
        else
          match parseIndex fnum files with
          | none => resolveLoop mh ok files trace rest2
          | some filepath =>
            match rest2 with
            | [] => .error (strOf "EOFError")
            | confirm :: rest3 =>
              if pyLower confirm = strOf "y" then
                let cmd := strOf "git checkout --theirs " ++ filepath
                if ok cmd then
                  let files' := files.erase filepath
                  let trace' := trace ++ [cmd, strOf "git add " ++ filepath]
                  if files'.isEmpty then do
                    let (cm, _) ← complete_merge mh rest3
                    .ok ⟨trace' ++ cm, files', true⟩
                  else resolveLoop mh ok files' trace' rest3
                else resolveLoop mh ok files (trace ++ [cmd]) rest3
              else resolveLoop mh ok files trace rest3
    else if choice = strOf "5" then
      -- mark as resolved
      match rest with
      | [] => .error (strOf "EOFError")
      | rawFnum :: rest2 =>
        match parseIndex (pyStrip rawFnum) files with
        | none => resolveLoop mh ok files trace rest2
        | some filepath =>
          let cmd := strOf "git add " ++ filepath
          if ok cmd then
            let files' := files.erase filepath
            if files'.isEmpty then do
              let (cm, _) ← complete_merge mh rest2
              .ok ⟨trace ++ [cmd] ++ cm, files', true⟩
            else resolveLoop mh ok files' (trace ++ [cmd]) rest2
          else resolveLoop mh ok files (trace ++ [cmd]) rest2
    else if choice = strOf "6" then
      -- abort merge (typed "yes"); the loop breaks either way
      match rest with
      | [] => .error (strOf "EOFError")
      | confirm :: _rest2 =>
        if pyLower confirm = strOf "yes" then
          .ok ⟨trace ++ [strOf "git merge --abort"], files, false⟩
        else .ok ⟨trace, files, false⟩
    else if choice = strOf "7" then .ok ⟨trace, files, false⟩
    else resolveLoop mh ok files trace rest

/-- `resolve_conflicts` entry: nothing to do without conflicts, else run
the menu loop over the freshly queried conflicted-file list. -/
def resolve_conflicts (w : GitWorld) (ok : PyStr → Bool) (inputs : List PyStr) :
    Except PyStr ResolveOut :=
  if !has_conflicts w then .ok ⟨[], [], false⟩
  else resolveLoop w.mergeHeadExists ok (get_conflicted_files w) [] inputs

/-- Abstract state of the repository during a merge, for interpreting the
command trace: the unmerged paths, the paths staged as resolved, the
number of commits created, and whether `.git/MERGE_HEAD` is present. -/
structure ConflictRepo where
  unmerged : List PyStr
  stagedPaths : List PyStr
  commitCount : Nat
  mergeHead : Bool
deriving Repr, DecidableEq

/-- Effect of one shell command on the merge state — a minimal model of
the external `git` binary: `git add .` stages every unmerged path,
`git add f` stages `f`, any `git commit` variant creates a commit and
clears `MERGE_HEAD`, and the `git checkout` variants (`--ours`,
`--theirs`) rewrite file contents only. -/
def gitStep (st : ConflictRepo) (cmd : PyStr) : ConflictRepo :=
  if cmd = strOf "git add ." then
    { st with stagedPaths := st.stagedPaths ++ st.unmerged, unmerged := [] }
  else if pyStartsWith cmd (strOf "git add ") then
    let f := cmd.drop 8
    { st with stagedPaths := st.stagedPaths ++ [f], unmerged := st.unmerged.erase f }
  else if pyStartsWith cmd (strOf "git commit") then
    { st with commitCount := st.commitCount + 1, mergeHead := false }
  else st

/-- Interpretation of a whole command trace. -/
def gitRun (st : ConflictRepo) (cmds : List PyStr) : ConflictRepo :=
  cmds.foldl gitStep st

end GitConflicts

namespace GitStash
/-! Translated from `src/gitcli/git_stash.py`. -/

/-- `stash_drop` (`git_stash.py`, lines 160-216): with no stashes it
returns at once; option `1` drops the most recent stash after a `y`
confirmation, option `2` drops a named stash after a `y` confirmation,
option `3` clears all stashes only after the (lowercased) confirmation
`yes`. -/
def stash_drop (w : GitWorld) (inputs : List PyStr) : Except PyStr (List PyStr) := do
  if pyFalsy w.stashListOut then .ok []
  else do
    let (rawChoice, rest) ← popInput inputs
    let choice := pyStrip rawChoice
    if choice = strOf "1" then do
      let (confirm, _) ← popInput rest
      if pyLower confirm = strOf "y" then .ok [strOf "git stash drop"] else .ok []
    else if choice = strOf "2" then do
      let (rawSid, rest2) ← popInput rest
      let sid := pyStrip rawSid
      if sid.isEmpty then .ok []
      else do
        let (confirm, _) ← popInput rest2
        if pyLower confirm = strOf "y" then .ok [strOf "git stash drop " ++ sid]
        else .ok []
    else if choice = strOf "3" then do
      let (confirm, _) ← popInput rest
      if pyLower confirm = strOf "yes" then .ok [strOf "git stash clear"] else .ok []
    else .ok []

end GitStash

namespace SmartWorkflows

/-- The shared final confirmation of `_undo_last_commit`
(`smart_workflows.py`, lines 503-508): a lowercased `y` runs the soft
reset. -/
def undoConfirm (inputs : List PyStr) : Except PyStr (List PyStr) := do
  let (confirm, _) ← popInput inputs
  if pyLower confirm = strOf "y" then .ok [strOf "git reset --soft HEAD~1"]
  else .ok []

/-- `_undo_last_commit` (`smart_workflows.py`, lines 469-508): nothing to
undo without a commit; when the commit is on a remote-tracking ref, menu
choice `1` creates a revert commit, `2` falls through to the soft-reset
confirmation, anything else cancels. -/
def _undo_last_commit (w : GitWorld) (inputs : List PyStr) : Except PyStr (List PyStr) := do
  if pyFalsy w.log1Oneline then .ok []
  else if Helpers.has_remote w && !pyFalsy w.branchRContainsHead then do
    let (rawChoice, rest) ← popInput inputs
    let choice := pyStrip rawChoice
    if choice = strOf "1" then .ok [strOf "git revert HEAD --no-edit"]
    else if choice = strOf "2" then undoConfirm rest
    else .ok []
  else undoConfirm inputs

/-- `smart_undo` (`smart_workflows.py`, lines 425-466): with uncommitted
changes, option `1` discards everything only after the (lowercased)
confirmation `yes`; option `2` discards named files; option `3` (or a
clean tree) goes to `_undo_last_commit`. -/
def smart_undo (w : GitWorld) (inputs : List PyStr) : Except PyStr (List PyStr) := do
  let anyChanges ← Helpers.has_any_changes w
  if anyChanges then do
    let (rawChoice, rest) ← popInput inputs
    let choice := pyStrip rawChoice
    if choice = strOf "1" then do
      let (confirm, _) ← popInput rest
      if pyLower confirm = strOf "yes" then
        .ok [strOf "git reset --hard HEAD", strOf "git clean -fd"]
      else .ok []
    else if choice = strOf "2" then do
      let (rawFiles, _) ← popInput rest
      let fs := pyStrip rawFiles
      if !fs.isEmpty then .ok [strOf "git checkout -- " ++ fs] else .ok []
    else if choice = strOf "3" then _undo_last_commit w rest
    else .ok []
  else _undo_last_commit w inputs

end SmartWorkflows

namespace GitOperations
/-! Translated from `src/gitcli/git_operations.py`.  Each handler returns
the list of state-mutating shell commands it executes, in order. -/

/-- `commit_changes` (`git_operations.py`, lines 99-120).  With no staged
changes but unstaged ones it runs `git add .` immediately (announcing
"Staging all changes...", without any prompt); with neither it aborts with
a notice.  It then prompts once for a message; an empty (stripped) message
aborts with no commit and no retry.  Returns the commands run and the
commit message used (`none` = no `git commit` was run). -/
def commit_changes (w : GitWorld) (inputs : List PyStr) :
    Except PyStr (List PyStr × Option PyStr) := do
  let staged ← Helpers.has_staged_changes w
  let pre : Option (List PyStr) ←
    if staged then pure (some [])
    else do
      let unstaged ← Helpers.has_unstaged_changes w
      pure (if unstaged then some [strOf "git add ."] else none)
  match pre with
  | none => .ok ([], none)
  | some t0 => do
    let (message, _) ← popInput inputs
    let m := pyStrip message
    if m.isEmpty then .ok (t0, none)
    else .ok (t0 ++ [strOf "git commit -m \"" ++ m ++ strOf "\""], some m)

/-- Outcome of the one `subprocess.run("git push", ...)` call a handler
makes: literal exit code, captured stdout and stderr. -/
structure PushEnv where
  pushExit : Int
  pushOut : PyStr
  pushErr : PyStr
deriving Repr

/-- `push_changes` (`git_operations.py`, lines 122-158).  Preconditions:
a remote must exist and the working tree must have no staged or unstaged
changes, else the handler refuses having run nothing.  On a rejected push
whose stderr contains both `rejected` and `non-fast-forward` it prompts
for force-push confirmation: the lowercased answer `yes` runs
`git push --force` once, anything else cancels. -/
def push_changes (w : GitWorld) (env : PushEnv) (inputs : List PyStr) :
    Except PyStr (List PyStr) := do
  let _branch := Helpers.get_current_branch w
  if !Helpers.has_remote w then .ok []
  else do
    let unstaged ← Helpers.has_unstaged_changes w
    let staged ← Helpers.has_staged_changes w
    if unstaged || staged then .ok []
    else if env.pushExit = 0 then .ok [strOf "git push"]
    else if pyContains env.pushErr (strOf "rejected") &&
        pyContains env.pushErr (strOf "non-fast-forward") then do
      let (ans, _) ← popInput inputs
      let force := pyLower ans
      if force = strOf "yes" then .ok [strOf "git push", strOf "git push --force"]
      else .ok [strOf "git push"]
    else .ok [strOf "git push"]

/-- `quick_push` (`git_operations.py`, lines 325-382): stage all, prompt
for a message (empty cancels, after the `git add .`), commit, push, with
the same non-fast-forward force gate as `push_changes`. -/
def quick_push (w : GitWorld) (env : PushEnv) (inputs : List PyStr) :
    Except PyStr (List PyStr) := do
  let _branch := Helpers.get_current_branch w
  if !Helpers.has_remote w then .ok []
  else do
    let anyChanges ← Helpers.has_any_changes w
    if !anyChanges then .ok []
    else do
      let t0 := [strOf "git add ."]
      let (message, rest) ← popInput inputs
      let m := pyStrip message
      if m.isEmpty then .ok t0
      else
        let t1 := t0 ++ [strOf "git commit -m \"" ++ m ++ strOf "\"", strOf "git push"]
        if env.pushExit = 0 then .ok t1
        else if pyContains env.pushErr (strOf "rejected") &&
            pyContains env.pushErr (strOf "non-fast-forward") then do
          let (ans, _) ← popInput rest
          let force := pyLower ans
          if force = strOf "yes" then .ok (t1 ++ [strOf "git push --force"])
          else .ok t1
        else .ok t1

end GitOperations

namespace Cli
/-! Translated from `src/gitcli/cli.py`. -/

/-- The canonical command set (tab-completion list `COMMANDS`). -/
def COMMANDS : List PyStr :=
  [strOf "save", strOf "config", strOf "commit", strOf "push", strOf "pull",
   strOf "status", strOf "stage", strOf "log", strOf "diff", strOf "diff-staged",
   strOf "switch-branch", strOf "add-branch", strOf "delete-branch",
   strOf "rename-branch", strOf "list-branch",
   strOf "quick-push", strOf "qp", strOf "sync", strOf "fetch", strOf "clone",
   strOf "remotes", strOf "reset",
   strOf "amend", strOf "hooks", strOf "list-hooks", strOf "stash",
   strOf "stash-pop", strOf "stash-apply",
   strOf "stash-list", strOf "stash-drop", strOf "stash-show",
   strOf "resolve-conflicts", strOf "check-conflicts",
   strOf "help", strOf "quit"]

/-- The fixed alias table `command_map` of `normalize_command`. -/
def command_map : List (PyStr × PyStr) :=
  [(strOf "listbranch", strOf "list-branch"),
   (strOf "switchbranch", strOf "switch-branch"),
   (strOf "addbranch", strOf "add-branch"),
   (strOf "deletebranch", strOf "delete-branch"),
   (strOf "renamebranch", strOf "rename-branch"),
   (strOf "quickpush", strOf "quick-push"),
   (strOf "diffstaged", strOf "diff-staged"),
   (strOf "listhooks", strOf "list-hooks"),
   (strOf "stashpop", strOf "stash-pop"),
   (strOf "stashapply", strOf "stash-apply"),
   (strOf "stashlist", strOf "stash-list"),
   (strOf "stashdrop", strOf "stash-drop"),
   (strOf "stashshow", strOf "stash-show"),
   (strOf "resolveconflicts", strOf "resolve-conflicts"),
   (strOf "checkconflicts", strOf "check-conflicts")]

/-- `normalize_command`: `cmd.strip().lower().replace(" ", "-")`, then the
alias table, returning the input unchanged when no alias matches. -/
def normalize_command (cmd : PyStr) : PyStr :=
  let c := pyReplaceChar (pyLower (pyStrip cmd)) ' ' '-'
  match command_map.lookup c with
  | some v => v
  | none => c

end Cli

/-- A repository with a configured remote, one commit on `main` and a
completely clean working tree (empty staged and unstaged name lists). -/
def wCleanRemote : GitWorld :=
  { revParseAbbrevRef := some (strOf "main")
    diffCachedNameOnly := some (strOf "")
    diffNameOnly := some (strOf "")
    remoteOut := some (strOf "origin") }

/-- A repository with unstaged changes only (no staged changes). -/
def wUnstagedOnly : GitWorld :=
  { revParseAbbrevRef := some (strOf "main")
    diffCachedNameOnly := some (strOf "")
    diffNameOnly := some (strOf "file.txt") }

/-- A repository with staged changes only. -/
def wStagedOnly : GitWorld :=
  { revParseAbbrevRef := some (strOf "main")
    diffCachedNameOnly := some (strOf "file.txt")
    diffNameOnly := some (strOf "") }

/-- A repository with a remote and unstaged changes. -/
def wDirtyRemote : GitWorld :=
  { wUnstagedOnly with remoteOut := some (strOf "origin") }

/-- A repository with no configured remote and a clean tree. -/
def wNoRemote : GitWorld :=
  { revParseAbbrevRef := some (strOf "main")
    diffCachedNameOnly := some (strOf "")
    diffNameOnly := some (strOf "")
    remoteOut := some (strOf "") }

/-- A git-push stderr text of a non-fast-forward rejection. -/
def rejErr : PyStr :=
  strOf "! [rejected]  main -> main (non-fast-forward)\nerror: failed to push some refs"

theorem staged_wUnstagedOnly : Helpers.has_staged_changes wUnstagedOnly = .ok false := rfl

theorem unstaged_wUnstagedOnly : Helpers.has_unstaged_changes wUnstagedOnly = .ok true := rfl

theorem staged_wStagedOnly : Helpers.has_staged_changes wStagedOnly = .ok true := rfl

theorem staged_wCleanRemote : Helpers.has_staged_changes wCleanRemote = .ok false := rfl

theorem unstaged_wCleanRemote : Helpers.has_unstaged_changes wCleanRemote = .ok false := rfl

theorem remote_wCleanRemote : Helpers.has_remote wCleanRemote = true := rfl

theorem remote_wDirtyRemote : Helpers.has_remote wDirtyRemote = true := rfl

theorem anyChanges_wDirtyRemote : Helpers.has_any_changes wDirtyRemote = .ok true := rfl

/-- C1 counterexample — the packaged `commit_changes` has no stage-all
prompt to decline: on a repository with unstaged-only changes it runs
`git add .` unconditionally, and the single prompt it issues is the commit
message, so answering `n` (as if declining) commits with message `n` —
contradicting the claim that a declined stage-all prompt leaves the tree
unchanged with no commit. -/
theorem C1_counterexample :
    GitOperations.commit_changes wUnstagedOnly [strOf "n"] =
      .ok ([strOf "git add .", strOf "git commit -m \"n\""], some (strOf "n")) ∧
    ([strOf "git add .", strOf "git commit -m \"n\""] : List PyStr) ≠ [] := by
  exact ⟨rfl, by decide⟩

/-- C1 (amended) — `commit_changes`: with no staged and no unstaged
changes it aborts with a notice running no git command; with unstaged-only
changes it stages all automatically (no prompt) and then prompts for a
message; with staged changes it prompts for a message directly; in either
case an empty (stripped) message ends the invocation with no commit and no
retry, and a non-empty one produces exactly one `git commit`. -/
theorem C1_commit_changes_amended :
    (∀ inputs, GitOperations.commit_changes wCleanRemote inputs = .ok ([], none)) ∧
    (∀ m rest, GitOperations.commit_changes wUnstagedOnly (m :: rest) =
      .ok (if (pyStrip m).isEmpty then ([strOf "git add ."], none)
        else ([strOf "git add .", strOf "git commit -m \"" ++ pyStrip m ++ strOf "\""],
          some (pyStrip m)))) ∧
    (∀ m rest, GitOperations.commit_changes wStagedOnly (m :: rest) =
      .ok (if (pyStrip m).isEmpty then ([], none)
        else ([strOf "git commit -m \"" ++ pyStrip m ++ strOf "\""], some (pyStrip m)))) := by
  refine ⟨fun inputs => rfl, fun m rest => ?_, fun m rest => ?_⟩ <;>
    by_cases h : (pyStrip m).isEmpty <;>
      simp [GitOperations.commit_changes, staged_wUnstagedOnly, unstaged_wUnstagedOnly,
        staged_wStagedOnly, popInput, h, Bind.bind, Except.bind, pure, Except.pure]

/-- Witness for C1: the amended theorem applied at the empty message (no
commit after the automatic staging) and at a non-empty message. -/
theorem C1_commit_changes_amended_witness :
    GitOperations.commit_changes wUnstagedOnly [strOf ""] =
      .ok ([strOf "git add ."], none) ∧
    GitOperations.commit_changes wStagedOnly [strOf "Fix bug"] =
      .ok ([strOf "git commit -m \"Fix bug\""], some (strOf "Fix bug")) := by
  constructor
  · rw [C1_commit_changes_amended.2.1 (strOf "") []]; rfl
  · rw [C1_commit_changes_amended.2.2 (strOf "Fix bug") []]; rfl

/-- C2 counterexample — the force-push gate lowercases the answer, so the
typed response `YES`, which is a response other than the word `yes` as
written, does execute `git push --force`, contradicting "for every
response other than `yes` no force push is executed". -/
theorem C2_counterexample :
    GitOperations.push_changes wCleanRemote ⟨1, [], rejErr⟩ [strOf "YES"] =
      .ok [strOf "git push", strOf "git push --force"] ∧
    strOf "YES" ≠ strOf "yes" :=
  ⟨rfl, by decide⟩

/-- C2 (amended) — on a push (plain or quick-push) rejected with stderr
containing both `rejected` and `non-fast-forward`, the handler prompts for
force-push confirmation; `git push --force` is executed, exactly once,
precisely when the lowercased response is the word `yes` (so the bare `y`
never force-pushes), and otherwise no further command runs after the
failed push. -/
theorem C2_force_push_gate_amended :
    (∀ err ans rest, pyContains err (strOf "rejected") = true →
      pyContains err (strOf "non-fast-forward") = true →
      GitOperations.push_changes wCleanRemote ⟨1, [], err⟩ (ans :: rest) =
        .ok (if pyLower ans = strOf "yes"
          then [strOf "git push", strOf "git push --force"]
          else [strOf "git push"])) ∧
    (∀ err msg ans rest, pyContains err (strOf "rejected") = true →
      pyContains err (strOf "non-fast-forward") = true →
      (pyStrip msg).isEmpty = false →
      GitOperations.quick_push wDirtyRemote ⟨1, [], err⟩ (msg :: ans :: rest) =
        .ok (if pyLower ans = strOf "yes"
          then [strOf "git add .",
                strOf "git commit -m \"" ++ pyStrip msg ++ strOf "\"",
                strOf "git push", strOf "git push --force"]
          else [strOf "git add .",
                strOf "git commit -m \"" ++ pyStrip msg ++ strOf "\"",
                strOf "git push"])) ∧
    List.count (strOf "git push --force")
      [strOf "git push", strOf "git push --force"] = 1 ∧
    GitOperations.push_changes wCleanRemote ⟨1, [], rejErr⟩ [strOf "y"] =
      .ok [strOf "git push"] := by
  refine ⟨?_, ?_, by decide, rfl⟩
  · intro err ans rest h1 h2
    by_cases hy : pyLower ans = strOf "yes" <;>
      simp [GitOperations.push_changes, staged_wCleanRemote, unstaged_wCleanRemote,
        remote_wCleanRemote, popInput, h1, h2, hy,
        Bind.bind, Except.bind, pure, Except.pure]
  · intro err msg ans rest h1 h2 h3
    by_cases hy : pyLower ans = strOf "yes" <;>
      simp [GitOperations.quick_push, anyChanges_wDirtyRemote, remote_wDirtyRemote,
        popInput, h1, h2, h3, hy, Bind.bind, Except.bind, pure, Except.pure]

/-- Witness for C2: the gate theorem applied to a concrete rejection
stderr with the response `no` (no force push) and, through the
counterexample scenario, the commands of the `quick_push` variant. -/
theorem C2_force_push_gate_amended_witness :
    GitOperations.push_changes wCleanRemote ⟨1, [], rejErr⟩ [strOf "no"] =
      .ok [strOf "git push"] ∧
    GitOperations.quick_push wDirtyRemote ⟨1, [], rejErr⟩
        [strOf "fix", strOf "yes"] =
      .ok [strOf "git add .", strOf "git commit -m \"fix\"", strOf "git push",
        strOf "git push --force"] := by
  constructor
  · have h := C2_force_push_gate_amended.1 rejErr (strOf "no") []
      (by decide) (by decide)
    simpa using h
  · have h := C2_force_push_gate_amended.2.1 rejErr (strOf "fix") (strOf "yes") []
      (by decide) (by decide) (by decide)
    simpa using h

/-- A repository with one stash saved. -/
def wWithStash : GitWorld :=
  { stashListOut := some (strOf "stash@\x7b0\x7d: WIP on main: 1a2b3c initial commit") }

/-- C3 counterexample — the destructive gates lowercase the typed answer,
so the input `Yes` (not the literal lowercase word `yes`) does trigger
`git stash clear`, contradicting "only the literal typed word `yes`
triggers it". -/
theorem C3_counterexample :
    GitStash.stash_drop wWithStash [strOf "3", strOf "Yes"] =
      .ok [strOf "git stash clear"] ∧
    strOf "Yes" ≠ strOf "yes" :=
  ⟨rfl, by decide⟩

/-- C3 (amended) — two-tier confirmation strength of the most destructive
operations: drop-all-stashes (`stash_drop` option 3) and discard-all
uncommitted changes (`smart_undo` option 1) run their destructive commands
precisely when the lowercased confirmation is the word `yes`; in
particular the input `y` triggers neither (no command runs, repository
state and stash list untouched), while `yes` does. -/
theorem C3_destructive_confirmation_strength :
    (∀ resp rest, GitStash.stash_drop wWithStash (strOf "3" :: resp :: rest) =
      if pyLower resp = strOf "yes" then .ok [strOf "git stash clear"] else .ok []) ∧
    (∀ resp rest, SmartWorkflows.smart_undo wUnstagedOnly (strOf "1" :: resp :: rest) =
      if pyLower resp = strOf "yes" then
        .ok [strOf "git reset --hard HEAD", strOf "git clean -fd"]
      else .ok []) ∧
    GitStash.stash_drop wWithStash [strOf "3", strOf "y"] = .ok [] ∧
    SmartWorkflows.smart_undo wUnstagedOnly [strOf "1", strOf "y"] = .ok [] ∧
    GitStash.stash_drop wWithStash [strOf "3", strOf "yes"] =
      .ok [strOf "git stash clear"] ∧
    SmartWorkflows.smart_undo wUnstagedOnly [strOf "1", strOf "yes"] =
      .ok [strOf "git reset --hard HEAD", strOf "git clean -fd"] :=
  ⟨fun _resp _rest => rfl, fun _resp _rest => rfl, rfl, rfl, rfl, rfl⟩

/-- Witness for C3: the characterizations applied at the declining
response `no`. -/
theorem C3_destructive_confirmation_strength_witness :
    GitStash.stash_drop wWithStash [strOf "3", strOf "no"] = .ok [] ∧
    SmartWorkflows.smart_undo wUnstagedOnly [strOf "1", strOf "no"] = .ok [] := by
  constructor
  · rw [C3_destructive_confirmation_strength.1 (strOf "no") []]; rfl
  · rw [C3_destructive_confirmation_strength.2.1 (strOf "no") []]; rfl

/-- C6 — plain `push_changes` refuses with no command run (in particular
no `git push` process) whenever no remote is configured or the working
tree has uncommitted (staged or unstaged) changes. -/
theorem C6_push_preconditions :
    (∀ w env inputs, Helpers.has_remote w = false →
      GitOperations.push_changes w env inputs = .ok []) ∧
    (∀ w env inputs u s, Helpers.has_unstaged_changes w = .ok u →
      Helpers.has_staged_changes w = .ok s → (u || s) = true →
      GitOperations.push_changes w env inputs = .ok []) := by
  constructor
  · intro w env inputs h
    simp [GitOperations.push_changes, h]
  · intro w env inputs u s hu hs hus
    by_cases hr : Helpers.has_remote w <;>
      simp [GitOperations.push_changes, hr, hu, hs, hus,
        Bind.bind, Except.bind, pure, Except.pure]

/-- Witness for C6: the no-remote world and the unstaged-changes world
both make `push_changes` a no-op. -/
theorem C6_push_preconditions_witness :
    GitOperations.push_changes wNoRemote ⟨0, [], []⟩ [] = .ok [] ∧
    GitOperations.push_changes wDirtyRemote ⟨0, [], []⟩ [] = .ok [] :=
  ⟨C6_push_preconditions.1 wNoRemote ⟨0, [], []⟩ [] (by decide),
   C6_push_preconditions.2 wDirtyRemote ⟨0, [], []⟩ [] true false rfl rfl rfl⟩

/-- Distinct paths: a path never equals itself with `.backup` appended. -/
theorem hookPath_ne_backup (p : PyStr) : p ≠ p ++ strOf ".backup" := by
  intro h
  have hlen := congrArg List.length h
  simp [List.length_append, strOf] at hlen

/-- C9 — hook install/uninstall round trip: installing a template over an
existing hook file preserves the original content as `<hook>.backup` and
persists the installation record; the subsequent uninstall succeeds,
restores the backup content byte-for-byte to the hook path, deletes the
backup, and removes the persisted record for that hook type. -/
theorem C9_hook_install_uninstall_round_trip
    (fs : GitHooks.HookFS) (hook_type template_key script : PyStr)
    (hook_config : Option PyStr) (c : PyStr)
    (hdir : fs.hooksDirExists = true)
    (hfile : fs.files (GitHooks.hookPath hook_type) = some c) :
    ((GitHooks.install_hook fs hook_type template_key script hook_config).2.files
        (GitHooks.hookPath hook_type ++ strOf ".backup") = some c) ∧
    ((GitHooks.install_hook fs hook_type template_key script hook_config).2.files
        (GitHooks.hookPath hook_type) = some script) ∧
    ((GitHooks.install_hook fs hook_type template_key script hook_config).2.records
        hook_type = some ⟨template_key, hook_config⟩) ∧
    ((GitHooks.uninstall_hook
        (GitHooks.install_hook fs hook_type template_key script hook_config).2
        hook_type).1 = true) ∧
    ((GitHooks.uninstall_hook
        (GitHooks.install_hook fs hook_type template_key script hook_config).2
        hook_type).2.files (GitHooks.hookPath hook_type) = some c) ∧
    ((GitHooks.uninstall_hook
        (GitHooks.install_hook fs hook_type template_key script hook_config).2
        hook_type).2.files (GitHooks.hookPath hook_type ++ strOf ".backup") = none) ∧
    ((GitHooks.uninstall_hook
        (GitHooks.install_hook fs hook_type template_key script hook_config).2
        hook_type).2.records hook_type = none) := by
  have hne := hookPath_ne_backup (GitHooks.hookPath hook_type)
  have hne' := Ne.symm hne
  refine ⟨?_, ?_, ?_, ?_, ?_, ?_, ?_⟩ <;>
    simp [GitHooks.install_hook, GitHooks.uninstall_hook, GitHooks.fsRename,
      GitHooks.fsRemove, GitHooks.fsWrite, GitHooks.fsChmodExec, hdir, hfile,
      hne, hne']

/-- A filesystem with the hooks directory, one existing `pre-commit` hook
and no backups or records. -/
def sampleHookFS : GitHooks.HookFS :=
  { hooksDirExists := true
    files := fun p =>
      if p = GitHooks.hookPath (strOf "pre-commit") then
        some (strOf "#!/bin/sh\nexit 0\n")
      else none
    executable := fun _ => false
    records := fun _ => none }

/-- Witness for C9: the round trip on a concrete filesystem with an
existing `pre-commit` hook. -/
theorem C9_hook_install_uninstall_round_trip_witness :
    ((GitHooks.uninstall_hook
        (GitHooks.install_hook sampleHookFS (strOf "pre-commit")
          (strOf "no-debug") (strOf "#!/bin/sh\necho hook\n") none).2
        (strOf "pre-commit")).2.files (GitHooks.hookPath (strOf "pre-commit")) =
      some (strOf "#!/bin/sh\nexit 0\n")) ∧
    ((GitHooks.uninstall_hook
        (GitHooks.install_hook sampleHookFS (strOf "pre-commit")
          (strOf "no-debug") (strOf "#!/bin/sh\necho hook\n") none).2
        (strOf "pre-commit")).2.records (strOf "pre-commit") = none) := by
  have h := C9_hook_install_uninstall_round_trip sampleHookFS (strOf "pre-commit")
    (strOf "no-debug") (strOf "#!/bin/sh\necho hook\n") none
    (strOf "#!/bin/sh\nexit 0\n") rfl (by simp [sampleHookFS])
  exact ⟨h.2.2.2.2.1, h.2.2.2.2.2.2⟩

/-- A repository with two conflicted files and no `.git/MERGE_HEAD`
(e.g. a conflicted `git stash pop`). -/
def wTwoConflicts : GitWorld :=
  { diffFilterU := some (strOf "fileA.txt\nfileB.txt"), mergeHeadExists := false }

/-- A repository with two conflicted files in a merge with
`.git/MERGE_HEAD` present. -/
def wTwoConflictsMH : GitWorld :=
  { diffFilterU := some (strOf "fileA.txt\nfileB.txt"), mergeHeadExists := true }

/-- An environment in which every mutating git command exits 0. -/
def okAll : PyStr → Bool := fun _ => true

/-- The merge state matching `wTwoConflicts` before resolution. -/
def twoConflictState : GitConflicts.ConflictRepo :=
  ⟨[strOf "fileA.txt", strOf "fileB.txt"], [], 0, false⟩

/-- The merge state matching `wTwoConflictsMH` before resolution. -/
def twoConflictStateMH : GitConflicts.ConflictRepo :=
  ⟨[strOf "fileA.txt", strOf "fileB.txt"], [], 0, true⟩

/-- C5 counterexample — without `.git/MERGE_HEAD`, removing the last
conflicted file from the in-memory list does trigger the
merge-completion step, but that step creates no commit at all (it only
prints that the changes are staged), contradicting the claim's "... else
a plain commit": marking both files resolved leaves a trace with no
`git commit` and a final state with zero commits. -/
theorem C5_counterexample :
    GitConflicts.resolve_conflicts wTwoConflicts okAll
        [strOf "5", strOf "1", strOf "5", strOf "1"] =
      .ok ⟨[strOf "git add fileA.txt", strOf "git add fileB.txt"], [], true⟩ ∧
    GitConflicts.gitRun twoConflictState
        [strOf "git add fileA.txt", strOf "git add fileB.txt"] =
      ⟨[], [strOf "fileA.txt", strOf "fileB.txt"], 0, false⟩ :=
  ⟨rfl, rfl⟩

/-- C5 (amended) — emptying the conflict list triggers the automatic
merge-completion step, which creates a commit only when `.git/MERGE_HEAD`
exists (the typed message, or `git commit --no-edit` — the merge message
file — when the message is empty) and otherwise leaves the changes staged
without committing; accept-theirs with target `all` on two conflicted
files runs `git checkout --theirs .` and `git add .`, staging both files
and emptying the repository's conflict list, and triggers the completion
step. -/
theorem C5_merge_completion_amended :
    (∀ inputs, GitConflicts.complete_merge false inputs = .ok ([], inputs)) ∧
    (∀ m rest, GitConflicts.complete_merge true (m :: rest) =
      if !(pyStrip m).isEmpty then
        .ok ([strOf "git commit -m \"" ++ pyStrip m ++ strOf "\""], rest)
      else .ok ([strOf "git commit --no-edit"], rest)) ∧
    GitConflicts.resolve_conflicts wTwoConflictsMH okAll
        [strOf "4", strOf "all", strOf "y", strOf ""] =
      .ok ⟨[strOf "git checkout --theirs .", strOf "git add .",
            strOf "git commit --no-edit"],
           [strOf "fileA.txt", strOf "fileB.txt"], true⟩ ∧
    GitConflicts.gitRun twoConflictStateMH
        [strOf "git checkout --theirs .", strOf "git add .",
         strOf "git commit --no-edit"] =
      ⟨[], [strOf "fileA.txt", strOf "fileB.txt"], 1, false⟩ ∧
    GitConflicts.resolve_conflicts wTwoConflicts okAll
        [strOf "4", strOf "all", strOf "y"] =
      .ok ⟨[strOf "git checkout --theirs .", strOf "git add ."],
           [strOf "fileA.txt", strOf "fileB.txt"], true⟩ ∧
    GitConflicts.gitRun twoConflictState
        [strOf "git checkout --theirs .", strOf "git add ."] =
      ⟨[], [strOf "fileA.txt", strOf "fileB.txt"], 0, false⟩ ∧
    GitConflicts.resolve_conflicts wTwoConflictsMH okAll
        [strOf "5", strOf "1", strOf "5", strOf "1", strOf "Merge fix"] =
      .ok ⟨[strOf "git add fileA.txt", strOf "git add fileB.txt",
            strOf "git commit -m \"Merge fix\""], [], true⟩ ∧
    GitConflicts.gitRun twoConflictStateMH
        [strOf "git add fileA.txt", strOf "git add fileB.txt",
         strOf "git commit -m \"Merge fix\""] =
      ⟨[], [strOf "fileA.txt", strOf "fileB.txt"], 1, false⟩ :=
  ⟨fun _inputs => rfl, fun _m _rest => rfl, rfl, rfl, rfl, rfl, rfl, rfl⟩

/-- Witness for C5: `complete_merge` without `MERGE_HEAD` runs nothing and
consumes no input; with `MERGE_HEAD` and an empty message it commits with
`--no-edit`. -/
theorem C5_merge_completion_amended_witness :
    GitConflicts.complete_merge false [strOf "x"] = .ok ([], [strOf "x"]) ∧
    GitConflicts.complete_merge true [strOf ""] =
      .ok ([strOf "git commit --no-edit"], []) := by
  constructor
  · exact C5_merge_completion_amended.1 [strOf "x"]
  · rw [C5_merge_completion_amended.2.1 (strOf "") []]; rfl

/-- A commit-subject history whose five subjects all carry
conventional-commit markers. -/
def convHist : PyStr :=
  strOf "feat: add core\nfix: handle empty input\ndocs: update usage\ntest: add cases\nchore: bump deps"

/-- A commit-subject history whose five subjects all start with `WIP`. -/
def wipHist : PyStr :=
  strOf "WIP\nWIP refactor\nWIP tests\nWIP more\nWIP again"

/-- A commit-subject history with no discernible pattern. -/
def noPatHist : PyStr :=
  strOf "initial commit\nsecond commit\nthird commit\nfourth commit\nfifth commit"

/-- C4 — smart-save default message generation: five conventional subjects
with the single staged file `test_foo.py` give a message starting with
`test:`; five `WIP` subjects give exactly `WIP` (for any non-empty staged
file list); no pattern with staged files `a.py`, `b.py` gives exactly
`Update a.py, b.py`; and a pattern is detected only when at least 3 of the
last 5 subjects match it. -/
theorem C4_smart_save_message_generation :
    (Helpers.generate_commit_message (some (strOf "test_foo.py")) (some convHist) =
        strOf "test: update test_foo.py" ∧
      pyStartsWith
        (Helpers.generate_commit_message (some (strOf "test_foo.py")) (some convHist))
        (strOf "test:") = true) ∧
    (∀ s : PyStr, s.isEmpty = false →
      Helpers.generate_commit_message (some s) (some wipHist) = strOf "WIP") ∧
    Helpers.generate_commit_message (some (strOf "a.py\nb.py")) (some noPatHist) =
      strOf "Update a.py, b.py" ∧
    (∀ r : PyStr,
      Helpers.get_commit_history_pattern (some r) = some (strOf "conventional") →
      3 ≤ Helpers.conventionalCount (pySplitOnChar (pyStrip r) '\n')) ∧
    (∀ r : PyStr,
      Helpers.get_commit_history_pattern (some r) = some (strOf "wip") →
      3 ≤ Helpers.wipCount (pySplitOnChar (pyStrip r) '\n')) := by
  refine ⟨by constructor <;> decide, ?_, by decide, ?_, ?_⟩
  · intro s hs
    unfold Helpers.generate_commit_message
    simp only [hs, Bool.false_eq_true, if_false]
    rw [if_neg (by decide), if_pos (by decide)]
  · intro r h
    simp only [Helpers.get_commit_history_pattern] at h
    split_ifs at h with h1 h2 h3 h4 <;> first | assumption | exact absurd h (by decide)
  · intro r h
    simp only [Helpers.get_commit_history_pattern] at h
    split_ifs at h with h1 h2 h3 h4 <;> first | assumption | exact absurd h (by decide)

/-- Witness for C4: the quantified conjuncts applied at the concrete
scenarios of the claim. -/
theorem C4_smart_save_message_generation_witness :
    Helpers.generate_commit_message (some (strOf "a.py")) (some wipHist) = strOf "WIP" ∧
    3 ≤ Helpers.conventionalCount (pySplitOnChar (pyStrip convHist) '\n') ∧
    3 ≤ Helpers.wipCount (pySplitOnChar (pyStrip wipHist) '\n') :=
  ⟨C4_smart_save_message_generation.2.1 (strOf "a.py") (by decide),
   C4_smart_save_message_generation.2.2.2.1 convHist (by decide),
   C4_smart_save_message_generation.2.2.2.2 wipHist (by decide)⟩

/-- C8 — the repository query layer degrades instead of raising on the
not-applicable cases: with no commits yet `git rev-parse --abbrev-ref HEAD`
fails (or prints nothing) and the current branch falls back to the fixed
default `main`; empty diff listings give `false`; `git remote` with no
remote prints nothing and `has_remote` is `false` (and even a failed
`git remote` is merely falsy); a failed `git rev-list --count` query (no
upstream) is treated as zero by the ahead/behind test instead of
erroring. -/
theorem C8_queries_degrade_on_not_applicable :
    Helpers.get_current_branch { revParseAbbrevRef := none } = strOf "main" ∧
    Helpers.get_current_branch { revParseAbbrevRef := some (strOf "") } = strOf "main" ∧
    Helpers.has_staged_changes { diffCachedNameOnly := some (strOf "") } = .ok false ∧
    Helpers.has_unstaged_changes { diffNameOnly := some (strOf "") } = .ok false ∧
    Helpers.has_remote { remoteOut := some (strOf "") } = false ∧
    Helpers.has_remote { remoteOut := none } = false ∧
    SmartWorkflows.countPositive none = .ok false ∧
    SmartWorkflows.countPositive (some (strOf "")) = .ok false ∧
    SmartWorkflows.countPositive (some (strOf "3")) = .ok true :=
  ⟨rfl, rfl, rfl, rfl, rfl, rfl, rfl, rfl, rfl⟩

/-- C10 — `get_config` never writes the configuration file and is total
(the source catches every parse failure); an absent or unparseable file
yields the complete hard-coded default configuration with `auto_push`,
`auto_stage`, `learn_from_history` and all validation toggles true and
`max_file_size_mb = 10`; only `save_config` ever writes the file. -/
theorem C10_get_config_defaults_and_no_write :
    (∀ st : Helpers.ConfigFile, (Helpers.get_config st).2 = []) ∧
    (Helpers.get_config none).1 = Helpers.defaultConfig ∧
    (Helpers.get_config (some none)).1 = Helpers.defaultConfig ∧
    (∀ c, (Helpers.get_config (some (some c))).1 = c) ∧
    Helpers.defaultConfig.auto_push = true ∧
    Helpers.defaultConfig.auto_stage = true ∧
    Helpers.defaultConfig.learn_from_history = true ∧
    Helpers.defaultConfig.validation_rules.check_debug = true ∧
    Helpers.defaultConfig.validation_rules.check_secrets = true ∧
    Helpers.defaultConfig.validation_rules.check_conflicts = true ∧
    Helpers.defaultConfig.validation_rules.check_large_files = true ∧
    Helpers.defaultConfig.validation_rules.max_file_size_mb = 10 ∧
    (∀ c, Helpers.save_config c = [strOf ".gitcli-config.json"]) := by
  refine ⟨?_, rfl, rfl, fun c => rfl, rfl, rfl, rfl, rfl, rfl, rfl, rfl, rfl, fun c => rfl⟩
  intro st
  rcases st with _ | (_ | c) <;> rfl

/-- Witness for C10: the no-write and default-on-absent conjuncts applied
at the absent-file state, and `save_config` writing exactly the config
file. -/
theorem C10_get_config_defaults_and_no_write_witness :
    (Helpers.get_config none).2 = [] ∧
    Helpers.save_config Helpers.defaultConfig = [strOf ".gitcli-config.json"] :=
  ⟨C10_get_config_defaults_and_no_write.1 none,
   C10_get_config_defaults_and_no_write.2.2.2.2.2.2.2.2.2.2.2.2 Helpers.defaultConfig⟩

/-- C7 — the Command Normalizer maps every supported alias spelling (the
explicit alias-table entries, their upper-case variants, and the
space-for-hyphen spellings of the canonical tokens) to the canonical
hyphenated lowercase token, it leaves every canonical token unchanged, and
it is idempotent on canonical tokens and on alias-table values. -/
theorem C7_normalizer_canonical_and_idempotent :
    (∀ c ∈ Cli.COMMANDS, Cli.normalize_command c = c) ∧
    (∀ p ∈ Cli.command_map, Cli.normalize_command p.1 = p.2) ∧
    (∀ p ∈ Cli.command_map,
      Cli.normalize_command (p.1.map Char.toUpper) = p.2) ∧
    (∀ p ∈ Cli.command_map,
      Cli.normalize_command (pyReplaceChar p.2 '-' ' ') = p.2) ∧
    (∀ c ∈ Cli.COMMANDS,
      Cli.normalize_command (Cli.normalize_command c) = Cli.normalize_command c) ∧
    (∀ p ∈ Cli.command_map,
      Cli.normalize_command (Cli.normalize_command p.1) = Cli.normalize_command p.1) ∧
    Cli.normalize_command (strOf "  Quick Push  ") = strOf "quick-push" := by
  refine ⟨?_, ?_, ?_, ?_, ?_, ?_, ?_⟩ <;> decide

/-- Witness for C7: the hypotheses of the bounded quantifiers are
discharged at concrete members of the tables. -/
theorem C7_normalizer_canonical_and_idempotent_witness :
    Cli.normalize_command (strOf "list-branch") = strOf "list-branch" ∧
    Cli.normalize_command (strOf "quickpush") = strOf "quick-push" ∧
    Cli.normalize_command (strOf "QUICKPUSH") = strOf "quick-push" ∧
    Cli.normalize_command (strOf "quick push") = strOf "quick-push" := by
  have h := C7_normalizer_canonical_and_idempotent
  refine ⟨h.1 (strOf "list-branch") (by decide),
          h.2.1 (strOf "quickpush", strOf "quick-push") (by decide),
          h.2.2.1 (strOf "quickpush", strOf "quick-push") (by decide), ?_⟩
  have := h.2.2.2.1 (strOf "quickpush", strOf "quick-push") (by decide)
  exact this
